import Mathlib

/-!
Verification of the progression engine of the LearnSphere course platform
(backend/server.js quiz/XP handlers, frontend leveling curve).

Pure functions below are shallow embeddings of the JavaScript source.
Machine numbers are modelled as `Nat`/`Int`; `Math.round(a / b)` on
non-negative `b` is modelled exactly as the rational rounding
`⌊(a/b) + 1/2⌋` (half away from negative infinity, matching JS
`Math.round` semantics).  Mongoose documents become Lean structures;
a handler is a function from the request body and the database-read
results to the HTTP response together with the documents it saves
(`none` = the handler never called `save` on that document).
-/

/-- JS `Math.round(num / den)` for `den > 0`, modelled exactly on rationals:
`round(x) = ⌊x + 1/2⌋`, which is `⌊(2*num + den) / (2*den)⌋` (floor
division).  This matches JS half-up behaviour, e.g. `round(-0.5) = 0`. -/
def jsRound (num den : Int) : Int :=
  Int.fdiv (2 * num + den) (2 * den)

/-- server.js line 496: `Math.round((score / totalQuestions) * 100)`. -/
def quizPercentage (score : Int) (totalQuestions : Nat) : Int :=
  jsRound (score * 100) (totalQuestions : Int)

/-- frontend/src/App.tsx lines 526-528:
`calculateXPForLevel(level) = Math.floor(100 * Math.pow(1.5, level - 1))`,
modelled exactly as the rational floor `100 * 3^(level-1) / 2^(level-1)`
(natural-number division).  Used with `level ≥ 1`. -/
def calculateXPForLevel (level : Nat) : Nat :=
  100 * 3 ^ (level - 1) / 2 ^ (level - 1)

/-- Modelled from the spec: the XP model file (backend/models/xp.js), which
holds the level-computation loop, is not among the sources; §4.1 of the
spec: "`currentLevel` is the largest L such that cumulative threshold sum
≤ `totalXP`", with per-level thresholds given by `calculateXPForLevel`.
Written with structural fuel (`fuel > xp` suffices since every threshold
is at least 100, see `calculateXPForLevel_ge`). -/
def levelLoopFuel : Nat → Nat → Nat → Nat × Nat
  | 0, xp, level => (level, calculateXPForLevel level - xp)
  | fuel + 1, xp, level =>
    if xp < calculateXPForLevel level then (level, calculateXPForLevel level - xp)
    else levelLoopFuel fuel (xp - calculateXPForLevel level) (level + 1)

/-- Modelled from the spec (§4.1): `levelForXP(totalXP) -> (level, xpToNextLevel)`. -/
def levelForXP (totalXP : Nat) : Nat × Nat :=
  levelLoopFuel (totalXP + 1) totalXP 1

/-- Cumulative XP threshold: total XP needed to have reached level `l + 1`
(sum of `calculateXPForLevel` over levels `1 .. l`). -/
def cumXP : Nat → Nat
  | 0 => 0
  | l + 1 => cumXP l + calculateXPForLevel (l + 1)

/-- Lesson document.  Fields `title`, `content`, `xp` are in the Course
model shipped with the sources (part of `LessonSchema`); the progress
fields `completed`, `attempts`, `quizScore`, `quizPassed` are read and
written by the `/api/quiz/complete` handler in server.js and are
modelled from the spec (§3) because the current revision of
backend/models/Course.js is not among the sources.  The nested `quiz`
sub-document is never consulted by the handlers under verification and
is omitted. -/
structure Lesson where
  title : String
  content : String
  xp : Nat
  completed : Bool
  attempts : Nat
  quizScore : Option Int
  quizPassed : Bool
deriving DecidableEq, Repr

/-- Chapter document: its list of lessons plus the stored completion
flag consulted by `updateChapterCompletion`. -/
structure Chapter where
  title : String
  lessons : List Lesson
  completed : Bool
deriving DecidableEq, Repr

/-- Course document.  Only the parts the quiz handler touches are kept:
the ordered chapter list.  (`ownerId` is folded into the database
lookup, which the handler model receives as an input.) -/
structure Course where
  chapters : List Chapter
deriving DecidableEq, Repr

/-- Modelled from the spec: `updateChapterCompletion` lives in the
missing revision of backend/models/Course.js; §4.5 / §3: chapter
`completed` iff every lesson in it is completed, and the call returns
whether this call is the one that completed the chapter
(edge-triggered). -/
def updateChapterCompletion (ch : Chapter) : Chapter × Bool :=
  let allDone := ch.lessons.all (fun l => l.completed)
  ({ ch with completed := allDone }, allDone && !ch.completed)

/-- Streak sub-document of the XP ledger.  Dates are abstracted as day
numbers (consecutive integers are consecutive calendar days). -/
structure Streak where
  current : Nat
  longest : Nat
  lastActivityDate : Option Nat
deriving DecidableEq, Repr

/-- XP ledger document (backend/models/xp.js, not among the sources);
fields from spec §3.  The achievement set is never consulted by the
handlers under verification and is omitted. -/
structure XPLedger where
  totalXP : Nat
  currentLevel : Nat
  xpToNextLevel : Nat
  streak : Streak
deriving DecidableEq, Repr

/-- Modelled from the spec: defaults of a ledger created lazily by
`new XP({ userId })` (§3 lifecycle; §4.1: `totalXP = 0` → level 1,
with 100 XP to the next level). -/
def newLedger : XPLedger :=
  ⟨0, 1, 100, ⟨0, 0, none⟩⟩

/-- Modelled from the spec: `addXP` of backend/models/xp.js is not among
the sources; §4.2: "`amount` must be a positive integer; reject (or
no-op) on zero/negative.  Adds to `totalXP`, recomputes level via 4.1;
`leveledUp` is true iff new level > old level."  Returns the mutated
ledger together with `(leveledUp, newLevel)`. -/
def addXP (ledger : XPLedger) (amount : Int) : XPLedger × Bool × Nat :=
  if amount ≤ 0 then (ledger, false, ledger.currentLevel)
  else
    let newTotal := ledger.totalXP + amount.toNat
    let lv := levelForXP newTotal
    ({ ledger with totalXP := newTotal, currentLevel := lv.1, xpToNextLevel := lv.2 },
     decide (ledger.currentLevel < lv.1), lv.1)

/-- Modelled from the spec: `updateStreak` of backend/models/xp.js is not
among the sources; §4.3 state machine over `streak.lastActivityDate`,
with "today" passed explicitly as a day number. -/
def updateStreak (s : Streak) (today : Nat) : Streak × Bool :=
  match s.lastActivityDate with
  | none => (⟨1, max s.longest 1, some today⟩, true)
  | some last =>
    if last = today then (s, false)
    else if last + 1 = today then
      (⟨s.current + 1, max s.longest (s.current + 1), some today⟩, true)
    else
      (⟨1, max s.longest 1, some today⟩, true)

/-- Request body of `POST /api/quiz/complete` (server.js line 489).
`none` models an absent (`undefined`) field.  Numeric JSON values are
`Int` where the handler does arithmetic on them (`score`, `xpReward`);
`totalQuestions`, `chapterIndex`, `lessonIndex` are kept as `Nat`
(array indices / a positive count). -/
structure QuizRequest where
  userId : Option String
  courseId : Option String
  chapterIndex : Option Nat
  lessonIndex : Option Nat
  score : Option Int
  totalQuestions : Option Nat
  xpReward : Option Int
deriving DecidableEq, Repr

/-- Response of `POST /api/quiz/complete`, restricted to the JSON fields
the claims mention; `status` is the HTTP status code and each optional
field is `none` when the corresponding response body omits it. -/
structure QuizResponse where
  status : Nat
  passed : Option Bool
  percentage : Option Int
  xpEarned : Option Int
  attempts : Option Nat
  chapterCompleted : Option Bool
deriving DecidableEq, Repr

/-- Handler of `POST /api/quiz/complete` (server.js lines 487-573).
Inputs besides the request body: `findCourse` is the result of
`Course.findOne({_id, ownerId})` and `findLedger` the result of
`XP.findOne({userId})`.  Output: the response, the course passed to
`course.save()` (or `none` if `save` is never reached) and the ledger
passed to `userXP.save()` (or `none`).  Validation (line 491) checks
`userId`/`courseId`/`totalQuestions` for JS falsiness (absent, empty
string, zero) but `chapterIndex`/`lessonIndex`/`score` only against
`undefined`.  An out-of-range chapter or lesson index makes the JS
throw a `TypeError`, caught as a 500 response before any `save`. -/
def completeQuiz (req : QuizRequest) (findCourse : Option Course)
    (findLedger : Option XPLedger) :
    QuizResponse × Option Course × Option XPLedger :=
  match req.userId, req.courseId, req.chapterIndex, req.lessonIndex,
      req.score, req.totalQuestions with
  | some u, some c, some ci, some li, some sc, some tq =>
    if u = "" ∨ c = "" ∨ tq = 0 then (⟨400, none, none, none, none, none⟩, none, none)
    else
      let percentage := quizPercentage sc tq
      let passed := decide (50 ≤ percentage)
      match findCourse with
      | none => (⟨404, none, none, none, none, none⟩, none, none)
      | some course =>
        match course.chapters[ci]? with
        | none => (⟨500, none, none, none, none, none⟩, none, none)
        | some chapter =>
          match chapter.lessons[li]? with
          | none => (⟨500, none, none, none, none, none⟩, none, none)
          | some lesson =>
            let lesson1 : Lesson :=
              { lesson with attempts := lesson.attempts + 1,
                            quizScore := some percentage, quizPassed := passed }
            if 50 ≤ percentage then
              let lesson2 : Lesson := { lesson1 with completed := true }
              let chapter1 : Chapter := { chapter with lessons := chapter.lessons.set li lesson2 }
              let updated := updateChapterCompletion chapter1
              let course1 : Course := { course with chapters := course.chapters.set ci updated.1 }
              let ledger := findLedger.getD newLedger
              let base := req.xpReward.getD 15
              let bonus := if percentage = 100 then 10
                           else if 90 ≤ percentage then 5 else 0
              let finalXP := base + bonus + (if updated.2 then 25 else 0)
              let added := addXP ledger finalXP
              (⟨200, some true, some percentage, some finalXP,
                 some lesson2.attempts, some updated.2⟩,
               some course1, some added.1)
            else
              let chapter1 : Chapter := { chapter with lessons := chapter.lessons.set li lesson1 }
              let course1 : Course := { course with chapters := course.chapters.set ci chapter1 }
              (⟨200, some false, some percentage, some 0,
                 some lesson1.attempts, none⟩,
               some course1, none)
  | _, _, _, _, _, _ => (⟨400, none, none, none, none, none⟩, none, none)

/-- Request body of `POST /api/xp/add` (server.js line 321). -/
structure AddXPRequest where
  userId : Option String
  amount : Option Int
  source : Option String
deriving DecidableEq, Repr

/-- Response of `POST /api/xp/add`, restricted to the fields the claims
mention. -/
structure AddXPResponse where
  status : Nat
  totalXP : Option Nat
  currentLevel : Option Nat
deriving DecidableEq, Repr

/-- Handler of `POST /api/xp/add` (server.js lines 319-347).  Validation
(line 323) checks `userId`, `amount`, `source` for JS falsiness, so
`amount = 0` is rejected with 400 while a negative amount passes
validation and reaches `addXP`.  Returns the response and the ledger
passed to `userXP.save()` (`none` when validation fails before any
mutation). -/
def addXPHandler (req : AddXPRequest) (findLedger : Option XPLedger) :
    AddXPResponse × Option XPLedger :=
  match req.userId, req.amount, req.source with
  | some u, some a, some s =>
    if u = "" ∨ a = 0 ∨ s = "" then (⟨400, none, none⟩, none)
    else
      let ledger := findLedger.getD newLedger
      let added := addXP ledger a
      (⟨200, some added.1.totalXP, some added.1.currentLevel⟩, some added.1)
  | _, _, _ => (⟨400, none, none⟩, none)

/-- Response of `POST /api/xp/streak/:userId`, restricted to the fields
the claims mention. -/
structure StreakResponse where
  streakContinued : Bool
  currentStreak : Nat
  longestStreak : Nat
deriving DecidableEq, Repr

/-- Handler of `POST /api/xp/streak/:userId` (server.js lines 350-379):
updates the streak, then, if the streak continued and the current
streak exceeds 1, adds `Math.min(current * 5, 50)` bonus XP, and always
saves the ledger. -/
def streakHandler (findLedger : Option XPLedger) (today : Nat) :
    StreakResponse × XPLedger :=
  let ledger := findLedger.getD newLedger
  let upd := updateStreak ledger.streak today
  let ledger1 : XPLedger := { ledger with streak := upd.1 }
  let ledger2 :=
    if upd.2 && decide (1 < upd.1.current) then
      (addXP ledger1 ((min (upd.1.current * 5) 50 : Nat) : Int)).1
    else ledger1
  (⟨upd.2, upd.1.current, upd.1.longest⟩, ledger2)

/-- Concrete lesson with no progress, used to instantiate the theorems. -/
def lessonFresh : Lesson := ⟨"Intro", "text", 10, false, 0, none, false⟩

/-- Concrete lesson already completed by a passing quiz. -/
def lessonDone : Lesson := ⟨"Recap", "text", 10, true, 1, some 60, true⟩

/-- Chapter with two still-incomplete lessons. -/
def chapterTwo : Chapter := ⟨"Basics", [lessonFresh, lessonFresh], false⟩

/-- Course holding `chapterTwo`. -/
def courseTwo : Course := ⟨[chapterTwo]⟩

/-- Chapter whose first lesson is already completed, second is not. -/
def chapterDone0 : Chapter := ⟨"Basics", [lessonDone, lessonFresh], false⟩

/-- Course holding `chapterDone0`. -/
def courseDone0 : Course := ⟨[chapterDone0]⟩

/-- Concrete ledger with some prior XP. -/
def ledger30 : XPLedger := ⟨30, 1, 70, ⟨1, 1, some 5⟩⟩

/-- Completion flag of the lesson at chapter `j`, lesson `k` of a course
(`false` when the indices are out of range). -/
def lessonCompleted (co : Course) (j k : Nat) : Bool :=
  (((co.chapters[j]?).bind (fun ch => ch.lessons[k]?)).map (fun l => l.completed)).getD false

theorem calculateXPForLevel_ge (level : Nat) : 100 ≤ calculateXPForLevel level := by
  have h2 : 0 < 2 ^ (level - 1) := pow_pos (by norm_num) _
  rw [calculateXPForLevel, Nat.le_div_iff_mul_le h2]
  exact Nat.mul_le_mul (le_refl 100) (Nat.pow_le_pow_left (by norm_num) _)

theorem cumXP_mono : Monotone cumXP :=
  monotone_nat_of_le_succ (fun l => by simp only [cumXP]; exact Nat.le_add_right _ _)

theorem cumXP_pred_add (level : Nat) (h : 1 ≤ level) :
    cumXP level = cumXP (level - 1) + calculateXPForLevel level := by
  cases level with
  | zero => omega
  | succ l => simp [cumXP]

/-- Loop invariant: with enough fuel the loop lands in the unique
threshold window containing the accumulated XP. -/
theorem levelLoopFuel_spec :
    ∀ fuel xp level, xp < fuel → 1 ≤ level →
      cumXP ((levelLoopFuel fuel xp level).1 - 1) ≤ cumXP (level - 1) + xp ∧
      cumXP (level - 1) + xp < cumXP ((levelLoopFuel fuel xp level).1) ∧
      (levelLoopFuel fuel xp level).2 =
        cumXP ((levelLoopFuel fuel xp level).1) - (cumXP (level - 1) + xp) ∧
      level ≤ (levelLoopFuel fuel xp level).1 := by
  intro fuel
  induction fuel with
  | zero => intro xp level hfuel; omega
  | succ fuel ih =>
    intro xp level hfuel hlevel
    by_cases h : xp < calculateXPForLevel level
    · simp only [levelLoopFuel, if_pos h]
      have hc := cumXP_pred_add level hlevel
      refine ⟨by omega, by omega, by omega, le_refl _⟩
    · simp only [levelLoopFuel, if_neg h]
      have ht := calculateXPForLevel_ge level
      have hle : calculateXPForLevel level ≤ xp := le_of_not_lt h
      have hrec := ih (xp - calculateXPForLevel level) (level + 1) (by omega) (by omega)
      have hc := cumXP_pred_add level hlevel
      have hshift : cumXP (level + 1 - 1) + (xp - calculateXPForLevel level) =
          cumXP (level - 1) + xp := by
        simp only [Nat.add_sub_cancel]
        omega
      rw [hshift] at hrec
      exact ⟨hrec.1, hrec.2.1, hrec.2.2.1, by omega⟩

theorem lt_of_getElem?_eq_some {α : Type} {l : List α} {i : Nat} {x : α}
    (h : l[i]? = some x) : i < l.length := by
  by_contra hc
  rw [List.getElem?_eq_none (le_of_not_lt hc)] at h
  cases h

theorem addXP_of_pos (l : XPLedger) (a : Int) (h : 0 < a) :
    addXP l a =
      ({ l with totalXP := l.totalXP + a.toNat,
                currentLevel := (levelForXP (l.totalXP + a.toNat)).1,
                xpToNextLevel := (levelForXP (l.totalXP + a.toNat)).2 },
       decide (l.currentLevel < (levelForXP (l.totalXP + a.toNat)).1),
       (levelForXP (l.totalXP + a.toNat)).1) := by
  rw [addXP, if_neg (not_le.mpr h)]

/-- Claim C7: `levelForXP` is monotonically non-decreasing in `totalXP`,
always returns `xpToNextLevel ≥ 0`, maps `totalXP = 0` to level 1, and
uses geometric thresholds: the XP required to go from level `L` to
`L + 1` equals `floor(100 * 1.5^(L-1))` (here the exact rational floor
`100 * 3^(L-1) / 2^(L-1)`).  The fourth conjunct characterises the
level as the unique window of the cumulative thresholds `cumXP`
containing `totalXP`, with `xpToNextLevel` the XP remaining to the next
threshold. -/
theorem levelForXP_monotone_spec :
    (∀ a b : Nat, a ≤ b → (levelForXP a).1 ≤ (levelForXP b).1) ∧
    (∀ xp : Nat, 0 ≤ (levelForXP xp).2) ∧
    (levelForXP 0).1 = 1 ∧
    (∀ xp : Nat,
      cumXP ((levelForXP xp).1 - 1) ≤ xp ∧ xp < cumXP ((levelForXP xp).1) ∧
      (levelForXP xp).2 = cumXP ((levelForXP xp).1) - xp ∧ 1 ≤ (levelForXP xp).1) ∧
    (∀ L : Nat, 1 ≤ L → cumXP L - cumXP (L - 1) = 100 * 3 ^ (L - 1) / 2 ^ (L - 1)) := by
  have char : ∀ xp : Nat,
      cumXP ((levelForXP xp).1 - 1) ≤ xp ∧ xp < cumXP ((levelForXP xp).1) ∧
      (levelForXP xp).2 = cumXP ((levelForXP xp).1) - xp ∧ 1 ≤ (levelForXP xp).1 := by
    intro xp
    have h := levelLoopFuel_spec (xp + 1) xp 1 (by omega) (by omega)
    simpa [levelForXP, cumXP] using h
  refine ⟨?_, fun _ => Nat.zero_le _, by decide, char, ?_⟩
  · intro a b hab
    by_contra hcon
    have hba : (levelForXP b).1 < (levelForXP a).1 := lt_of_not_le hcon
    have h1 := (char a).1
    have h2 := (char b).2.1
    have : cumXP ((levelForXP b).1) ≤ cumXP ((levelForXP a).1 - 1) :=
      cumXP_mono (by omega)
    omega
  · intro L hL
    rw [cumXP_pred_add L hL, Nat.add_sub_cancel_left, calculateXPForLevel]

/-- Witness for C7 at concrete inputs. -/
theorem levelForXP_monotone_spec_witness :
    (levelForXP 120).1 ≤ (levelForXP 400).1 ∧
    cumXP ((levelForXP 260).1 - 1) ≤ 260 ∧
    cumXP 2 - cumXP 1 = 100 * 3 ^ 1 / 2 ^ 1 :=
  ⟨levelForXP_monotone_spec.1 120 400 (by norm_num),
   (levelForXP_monotone_spec.2.2.2.1 260).1,
   levelForXP_monotone_spec.2.2.2.2 2 (by norm_num)⟩

/-- Claim C1: for every quiz submission with `totalQuestions > 0`, the
handler computes `percentage = round(score / totalQuestions * 100)` and
sets `passed` to true iff `percentage ≥ 50`; in particular
`score = 1, totalQuestions = 2` gives 50% and `score = 49,
totalQuestions = 100` gives 49%. -/
theorem quiz_pass_threshold
    (u c : String) (hu : u ≠ "") (hc : c ≠ "")
    (ci li : Nat) (sc : Int) (tq : Nat) (htq : tq ≠ 0) (xr : Option Int)
    (course : Course) (findLedger : Option XPLedger)
    (ch : Chapter) (hch : course.chapters[ci]? = some ch)
    (ls : Lesson) (hls : ch.lessons[li]? = some ls) :
    (completeQuiz ⟨some u, some c, some ci, some li, some sc, some tq, xr⟩
        (some course) findLedger).1.percentage = some (quizPercentage sc tq) ∧
    (completeQuiz ⟨some u, some c, some ci, some li, some sc, some tq, xr⟩
        (some course) findLedger).1.passed = some (decide (50 ≤ quizPercentage sc tq)) ∧
    quizPercentage 1 2 = 50 ∧ quizPercentage 49 100 = 49 := by
  have hval : ¬ (u = "" ∨ c = "" ∨ tq = 0) := by
    push_neg
    exact ⟨hu, hc, htq⟩
  refine ⟨?_, ?_, by decide, by decide⟩ <;>
    by_cases hp : 50 ≤ quizPercentage sc tq <;>
      simp [completeQuiz, hval, hch, hls, hp]

/-- Witness for C1 at the spec's boundary inputs. -/
theorem quiz_pass_threshold_witness :
    (completeQuiz ⟨some "user1", some "course1", some 0, some 0, some 1, some 2, none⟩
        (some courseTwo) none).1.percentage = some (quizPercentage 1 2) ∧
    (completeQuiz ⟨some "user1", some "course1", some 0, some 0, some 1, some 2, none⟩
        (some courseTwo) none).1.passed = some (decide (50 ≤ quizPercentage 1 2)) ∧
    quizPercentage 1 2 = 50 ∧ quizPercentage 49 100 = 49 :=
  quiz_pass_threshold "user1" "course1" (by decide) (by decide) 0 0 1 2 (by decide) none
    courseTwo none chapterTwo rfl lessonFresh rfl

/-- Counterexample to claim C2 as stated: a perfect score (100%) on a
lesson that does not complete its chapter earns `15 + 10 = 25` XP, not
`15 + 10 + 5 = 30`: the near-perfect bonus is in an `else if` branch
(server.js line 526), so a perfect score does not also receive it. -/
theorem quiz_xp_bonus_not_summed :
    (completeQuiz ⟨some "user1", some "course1", some 0, some 0, some 3, some 3, none⟩
        (some courseTwo) none).1.percentage = some 100 ∧
    (completeQuiz ⟨some "user1", some "course1", some 0, some 0, some 3, some 3, none⟩
        (some courseTwo) none).1.chapterCompleted = some false ∧
    (completeQuiz ⟨some "user1", some "course1", some 0, some 0, some 3, some 3, none⟩
        (some courseTwo) none).1.xpEarned = some 25 ∧
    (completeQuiz ⟨some "user1", some "course1", some 0, some 0, some 3, some 3, none⟩
        (some courseTwo) none).1.xpEarned ≠ some (15 + 10 + 5) :=
  ⟨by decide, by decide, by decide, by decide⟩

/-- Claim C2 (amended): for every passing quiz submission, the XP awarded
equals the base reward plus exactly one score bonus — 10 when
`percentage = 100`, else 5 when `percentage ≥ 90`, else 0 (the perfect
and near-perfect bonuses are mutually exclusive, not summed) — plus the
25-point chapter-completion bonus when this pass completed the
chapter. -/
theorem quiz_xp_formula
    (u c : String) (hu : u ≠ "") (hc : c ≠ "")
    (ci li : Nat) (sc : Int) (tq : Nat) (htq : tq ≠ 0) (xr : Option Int)
    (course : Course) (findLedger : Option XPLedger)
    (ch : Chapter) (hch : course.chapters[ci]? = some ch)
    (ls : Lesson) (hls : ch.lessons[li]? = some ls)
    (hpass : 50 ≤ quizPercentage sc tq) :
    ∃ cc : Bool,
      (completeQuiz ⟨some u, some c, some ci, some li, some sc, some tq, xr⟩
          (some course) findLedger).1.chapterCompleted = some cc ∧
      (completeQuiz ⟨some u, some c, some ci, some li, some sc, some tq, xr⟩
          (some course) findLedger).1.xpEarned =
        some (xr.getD 15 +
          (if quizPercentage sc tq = 100 then 10
           else if 90 ≤ quizPercentage sc tq then 5 else 0) +
          (if cc then 25 else 0)) := by
  have hval : ¬ (u = "" ∨ c = "" ∨ tq = 0) := by
    push_neg
    exact ⟨hu, hc, htq⟩
  simp [completeQuiz, hval, hch, hls, hpass]

/-- Witness for C2's amended theorem at a concrete input. -/
theorem quiz_xp_formula_witness :
    ∃ cc : Bool,
      (completeQuiz ⟨some "user1", some "course1", some 0, some 0, some 3, some 3, none⟩
          (some courseTwo) none).1.chapterCompleted = some cc ∧
      (completeQuiz ⟨some "user1", some "course1", some 0, some 0, some 3, some 3, none⟩
          (some courseTwo) none).1.xpEarned =
        some ((none : Option Int).getD 15 +
          (if quizPercentage 3 3 = 100 then 10
           else if 90 ≤ quizPercentage 3 3 then 5 else 0) +
          (if cc then 25 else 0)) :=
  quiz_xp_formula "user1" "course1" (by decide) (by decide) 0 0 3 3 (by decide) none
    courseTwo none chapterTwo rfl lessonFresh rfl (by decide)

/-- Claim C3: `POST /api/quiz/complete` is not idempotent on passing
resubmissions: even when the target lesson's `completed` flag is
already true, a passing submission (default reward, `xpReward` absent)
still reaches `addXP` with a positive amount — at least the base 15 —
and the saved ledger's `totalXP` strictly grows.  No guard in the pass
branch (server.js lines 511-536) inspects the prior `completed`
value. -/
theorem quiz_resubmission_awards_again
    (u c : String) (hu : u ≠ "") (hc : c ≠ "")
    (ci li : Nat) (sc : Int) (tq : Nat) (htq : tq ≠ 0)
    (course : Course) (ledger : XPLedger)
    (ch : Chapter) (hch : course.chapters[ci]? = some ch)
    (ls : Lesson) (hls : ch.lessons[li]? = some ls)
    (_hdone : ls.completed = true)
    (hpass : 50 ≤ quizPercentage sc tq) :
    ∃ (k : Int) (l' : XPLedger),
      (completeQuiz ⟨some u, some c, some ci, some li, some sc, some tq, none⟩
          (some course) (some ledger)).1.xpEarned = some k ∧
      15 ≤ k ∧
      (completeQuiz ⟨some u, some c, some ci, some li, some sc, some tq, none⟩
          (some course) (some ledger)).2.2 = some l' ∧
      l'.totalXP = ledger.totalXP + k.toNat ∧
      ledger.totalXP < l'.totalXP := by
  have hval : ¬ (u = "" ∨ c = "" ∨ tq = 0) := by
    push_neg
    exact ⟨hu, hc, htq⟩
  have hk : (0:Int) < 15 +
      (if quizPercentage sc tq = 100 then 10
       else if 90 ≤ quizPercentage sc tq then 5 else 0) +
      (if (updateChapterCompletion
            ⟨ch.title, ch.lessons.set li
              ⟨ls.title, ls.content, ls.xp, true, ls.attempts + 1,
               some (quizPercentage sc tq), true⟩, ch.completed⟩).2 then 25 else 0) := by
    split_ifs <;> norm_num
  simp [completeQuiz, hval, hch, hls, hpass, addXP_of_pos _ _ hk]
  exact ⟨by split_ifs <;> norm_num, hk⟩

/-- Witness for C3: resubmitting a passing score on the already-completed
first lesson of `courseDone0` still adds XP to `ledger30`. -/
theorem quiz_resubmission_awards_again_witness :
    ∃ (k : Int) (l' : XPLedger),
      (completeQuiz ⟨some "user1", some "course1", some 0, some 0, some 3, some 3, none⟩
          (some courseDone0) (some ledger30)).1.xpEarned = some k ∧
      15 ≤ k ∧
      (completeQuiz ⟨some "user1", some "course1", some 0, some 0, some 3, some 3, none⟩
          (some courseDone0) (some ledger30)).2.2 = some l' ∧
      l'.totalXP = ledger30.totalXP + k.toNat ∧
      ledger30.totalXP < l'.totalXP :=
  quiz_resubmission_awards_again "user1" "course1" (by decide) (by decide) 0 0 3 3
    (by decide) courseDone0 ledger30 chapterDone0 rfl lessonDone rfl rfl (by decide)

/-- Claim C4: for every failing quiz submission (`percentage < 50`), the
handler increments the target lesson's `attempts` by exactly 1, stores
`quizScore = percentage` and `quizPassed = false`, never saves the
ledger (`xpEarned = 0`, `addXP` is not called), leaves the lesson's
`completed` flag and every other lesson, chapter and course field
unchanged. -/
theorem quiz_fail_frame
    (u c : String) (hu : u ≠ "") (hc : c ≠ "")
    (ci li : Nat) (sc : Int) (tq : Nat) (htq : tq ≠ 0) (xr : Option Int)
    (course : Course) (findLedger : Option XPLedger)
    (ch : Chapter) (hch : course.chapters[ci]? = some ch)
    (ls : Lesson) (hls : ch.lessons[li]? = some ls)
    (hfail : ¬ 50 ≤ quizPercentage sc tq) :
    (completeQuiz ⟨some u, some c, some ci, some li, some sc, some tq, xr⟩
        (some course) findLedger).1.passed = some false ∧
    (completeQuiz ⟨some u, some c, some ci, some li, some sc, some tq, xr⟩
        (some course) findLedger).1.xpEarned = some 0 ∧
    (completeQuiz ⟨some u, some c, some ci, some li, some sc, some tq, xr⟩
        (some course) findLedger).1.attempts = some (ls.attempts + 1) ∧
    (completeQuiz ⟨some u, some c, some ci, some li, some sc, some tq, xr⟩
        (some course) findLedger).2.2 = none ∧
    (∃ course',
      (completeQuiz ⟨some u, some c, some ci, some li, some sc, some tq, xr⟩
          (some course) findLedger).2.1 = some course' ∧
      (∀ j, j ≠ ci → course'.chapters[j]? = course.chapters[j]?) ∧
      (∃ ch', course'.chapters[ci]? = some ch' ∧
        ch'.title = ch.title ∧ ch'.completed = ch.completed ∧
        (∀ k, k ≠ li → ch'.lessons[k]? = ch.lessons[k]?) ∧
        (∃ ls', ch'.lessons[li]? = some ls' ∧
          ls'.title = ls.title ∧ ls'.content = ls.content ∧ ls'.xp = ls.xp ∧
          ls'.completed = ls.completed ∧ ls'.attempts = ls.attempts + 1 ∧
          ls'.quizScore = some (quizPercentage sc tq) ∧ ls'.quizPassed = false))) := by
  have hval : ¬ (u = "" ∨ c = "" ∨ tq = 0) := by
    push_neg
    exact ⟨hu, hc, htq⟩
  have hci := lt_of_getElem?_eq_some hch
  have hli := lt_of_getElem?_eq_some hls
  simp [completeQuiz, hval, hch, hls, hfail]
  refine ⟨fun j hj => List.getElem?_set_ne (Ne.symm hj), ?_⟩
  rw [List.getElem?_set_self hci]
  refine ⟨_, rfl, rfl, rfl, fun k hk => List.getElem?_set_ne (Ne.symm hk), ?_⟩
  rw [List.getElem?_set_self hli]
  exact ⟨_, rfl, rfl, rfl, rfl, rfl, rfl, rfl, rfl⟩

/-- Witness for C4 at `score = 49, totalQuestions = 100` on `courseDone0`
(whose target lesson starts with `attempts = 1`). -/
theorem quiz_fail_frame_witness :
    (completeQuiz ⟨some "user1", some "course1", some 0, some 0, some 49, some 100, none⟩
        (some courseDone0) (some ledger30)).1.passed = some false ∧
    (completeQuiz ⟨some "user1", some "course1", some 0, some 0, some 49, some 100, none⟩
        (some courseDone0) (some ledger30)).1.xpEarned = some 0 ∧
    (completeQuiz ⟨some "user1", some "course1", some 0, some 0, some 49, some 100, none⟩
        (some courseDone0) (some ledger30)).1.attempts = some (lessonDone.attempts + 1) ∧
    (completeQuiz ⟨some "user1", some "course1", some 0, some 0, some 49, some 100, none⟩
        (some courseDone0) (some ledger30)).2.2 = none ∧
    (∃ course',
      (completeQuiz ⟨some "user1", some "course1", some 0, some 0, some 49, some 100, none⟩
          (some courseDone0) (some ledger30)).2.1 = some course' ∧
      (∀ j, j ≠ 0 → course'.chapters[j]? = courseDone0.chapters[j]?) ∧
      (∃ ch', course'.chapters[0]? = some ch' ∧
        ch'.title = chapterDone0.title ∧ ch'.completed = chapterDone0.completed ∧
        (∀ k, k ≠ 0 → ch'.lessons[k]? = chapterDone0.lessons[k]?) ∧
        (∃ ls', ch'.lessons[0]? = some ls' ∧
          ls'.title = lessonDone.title ∧ ls'.content = lessonDone.content ∧
          ls'.xp = lessonDone.xp ∧
          ls'.completed = lessonDone.completed ∧ ls'.attempts = lessonDone.attempts + 1 ∧
          ls'.quizScore = some (quizPercentage 49 100) ∧ ls'.quizPassed = false))) :=
  quiz_fail_frame "user1" "course1" (by decide) (by decide) 0 0 49 100 (by decide) none
    courseDone0 (some ledger30) chapterDone0 rfl lessonDone rfl (by decide)

/-- Claim C5: the XP-addition operation requires a positive amount and
leaves the ledger unchanged on zero or negative amounts: `addXP` (spec
§4.2) is a no-op for `amount ≤ 0`; `POST /api/xp/add` with `amount = 0`
is rejected with 400 before any mutation (the JS falsiness check on
line 323); and a negative amount, which passes that check, still leaves
the saved ledger's `totalXP` unchanged. -/
theorem xp_add_nonpositive_noop :
    (∀ (l : XPLedger) (a : Int), a ≤ 0 → addXP l a = (l, false, l.currentLevel)) ∧
    (∀ (u s : String) (findLedger : Option XPLedger),
      (addXPHandler ⟨some u, some 0, some s⟩ findLedger).1.status = 400 ∧
      (addXPHandler ⟨some u, some 0, some s⟩ findLedger).2 = none) ∧
    (∀ (u s : String) (a : Int), u ≠ "" → s ≠ "" → a < 0 →
      ∀ findLedger : Option XPLedger,
        (addXPHandler ⟨some u, some a, some s⟩ findLedger).2 =
          some (findLedger.getD newLedger) ∧
        (addXPHandler ⟨some u, some a, some s⟩ findLedger).1.totalXP =
          some (findLedger.getD newLedger).totalXP) := by
  refine ⟨fun l a ha => by rw [addXP, if_pos ha], fun u s findLedger => ?_, ?_⟩
  · exact ⟨by simp [addXPHandler], by simp [addXPHandler]⟩
  · intro u s a hu hs ha findLedger
    have hval : ¬ (u = "" ∨ a = 0 ∨ s = "") := by
      push_neg
      exact ⟨hu, by omega, hs⟩
    have hnoop : addXP (findLedger.getD newLedger) a =
        (findLedger.getD newLedger, false, (findLedger.getD newLedger).currentLevel) := by
      rw [addXP, if_pos (le_of_lt ha)]
    exact ⟨by simp [addXPHandler, hval, hnoop], by simp [addXPHandler, hval, hnoop]⟩

/-- Witness for C5 at concrete inputs (`amount = 0` and `amount = -5`). -/
theorem xp_add_nonpositive_noop_witness :
    addXP ledger30 (-5) = (ledger30, false, ledger30.currentLevel) ∧
    ((addXPHandler ⟨some "user1", some 0, some "quiz"⟩ (some ledger30)).1.status = 400 ∧
     (addXPHandler ⟨some "user1", some 0, some "quiz"⟩ (some ledger30)).2 = none) ∧
    ((addXPHandler ⟨some "user1", some (-5), some "quiz"⟩ (some ledger30)).2 =
       some ((some ledger30).getD newLedger) ∧
     (addXPHandler ⟨some "user1", some (-5), some "quiz"⟩ (some ledger30)).1.totalXP =
       some ((some ledger30).getD newLedger).totalXP) :=
  ⟨xp_add_nonpositive_noop.1 ledger30 (-5) (by norm_num),
   xp_add_nonpositive_noop.2.1 "user1" "quiz" (some ledger30),
   xp_add_nonpositive_noop.2.2 "user1" "quiz" (-5) (by decide) (by decide) (by norm_num)
     (some ledger30)⟩

/-- Claim C6: every mutation endpoint leaves stored state unchanged when
it fails with a validation (400) or not-found (404) error:
`POST /api/quiz/complete` saves neither the course nor the ledger on
those statuses, and `POST /api/xp/add` saves nothing on a 400. -/
theorem mutation_no_write_on_error :
    (∀ (req : QuizRequest) (fc : Option Course) (fl : Option XPLedger),
      (completeQuiz req fc fl).1.status = 400 ∨ (completeQuiz req fc fl).1.status = 404 →
      (completeQuiz req fc fl).2.1 = none ∧ (completeQuiz req fc fl).2.2 = none) ∧
    (∀ (req : AddXPRequest) (fl : Option XPLedger),
      (addXPHandler req fl).1.status = 400 → (addXPHandler req fl).2 = none) := by
  constructor
  · rintro ⟨u, c, ci, li, sc, tq, xr⟩ fc fl h
    cases u <;> cases c <;> cases ci <;> cases li <;> cases sc <;> cases tq <;>
        try (exact ⟨rfl, rfl⟩)
    rename_i u c ci li sc tq
    by_cases hval : u = "" ∨ c = "" ∨ tq = 0
    · simp [completeQuiz, hval]
    · rcases fc with _ | course
      · simp [completeQuiz, hval]
      · rcases hcc : course.chapters[ci]? with _ | chapter
        · simp [completeQuiz, hval, hcc] at h
        · rcases hll : chapter.lessons[li]? with _ | lesson
          · simp [completeQuiz, hval, hcc, hll] at h
          · by_cases hp : 50 ≤ quizPercentage sc tq <;>
              simp [completeQuiz, hval, hcc, hll, hp] at h
  · rintro ⟨u, a, s⟩ fl h
    cases u <;> cases a <;> cases s <;> try rfl
    rename_i u a s
    by_cases hval : u = "" ∨ a = 0 ∨ s = ""
    · simp [addXPHandler, hval]
    · simp [addXPHandler, hval] at h

/-- Witness for C6: a quiz submission missing `userId` and an XP request
missing `amount` write nothing. -/
theorem mutation_no_write_on_error_witness :
    ((completeQuiz ⟨none, some "course1", some 0, some 0, some 0, some 3, none⟩
        (some courseTwo) (some ledger30)).2.1 = none ∧
     (completeQuiz ⟨none, some "course1", some 0, some 0, some 0, some 3, none⟩
        (some courseTwo) (some ledger30)).2.2 = none) ∧
    (addXPHandler ⟨some "user1", none, some "quiz"⟩ (some ledger30)).2 = none :=
  ⟨mutation_no_write_on_error.1 ⟨none, some "course1", some 0, some 0, some 0, some 3, none⟩
     (some courseTwo) (some ledger30) (Or.inl (by decide)),
   mutation_no_write_on_error.2 ⟨some "user1", none, some "quiz"⟩ (some ledger30) (by decide)⟩

/-- Claim C8: on `POST /api/xp/streak/{userId}`, bonus XP is added to the
ledger exactly when the streak continued and the current streak exceeds
1, and the amount is `min(current * 5, 50)`, hence never more than
50 (server.js lines 359-365). -/
theorem streak_bonus_exact (findLedger : Option XPLedger) (today : Nat) :
    (streakHandler findLedger today).2.totalXP =
      (findLedger.getD newLedger).totalXP +
        (if (streakHandler findLedger today).1.streakContinued = true ∧
            1 < (streakHandler findLedger today).1.currentStreak
         then min ((streakHandler findLedger today).1.currentStreak * 5) 50 else 0) ∧
    (streakHandler findLedger today).2.totalXP ≤ (findLedger.getD newLedger).totalXP + 50 := by
  simp only [streakHandler]
  by_cases hcond : (updateStreak (findLedger.getD newLedger).streak today).2 = true ∧
      1 < (updateStreak (findLedger.getD newLedger).streak today).1.current
  · have hb : (0:Int) <
        ((min ((updateStreak (findLedger.getD newLedger).streak today).1.current * 5) 50 : Nat) : Int) := by
      have h2 := hcond.2
      have h3 : 10 ≤ min ((updateStreak (findLedger.getD newLedger).streak today).1.current * 5) 50 := by
        omega
      omega
    rw [if_pos (by simp [hcond.1, hcond.2]), addXP_of_pos _ _ hb]
    refine ⟨?_, ?_⟩
    all_goals simp [hcond.1, hcond.2]
    all_goals omega
  · rw [if_neg (by simpa [Bool.and_eq_true, decide_eq_true_eq] using hcond)]
    constructor
    · simp [hcond]
    · simp

/-- Claim C9: `POST /api/quiz/complete` rejects every request whose
`totalQuestions` is absent or zero with a 400 before computing the
percentage (no division by zero is ever evaluated, and nothing is
written), while `chapterIndex = 0`, `lessonIndex = 0` and `score = 0`
pass validation (they are compared against `undefined`, not for JS
falsiness), so such a request is never answered with a 400. -/
theorem quiz_validation_zero_boundary :
    (∀ (req : QuizRequest) (fc : Option Course) (fl : Option XPLedger),
      (req.totalQuestions = none ∨ req.totalQuestions = some 0) →
      (completeQuiz req fc fl).1.status = 400 ∧
      (completeQuiz req fc fl).2.1 = none ∧ (completeQuiz req fc fl).2.2 = none) ∧
    (∀ (u c : String), u ≠ "" → c ≠ "" → ∀ (tq : Nat), tq ≠ 0 →
      ∀ (xr : Option Int) (fc : Option Course) (fl : Option XPLedger),
        (completeQuiz ⟨some u, some c, some 0, some 0, some 0, some tq, xr⟩ fc fl).1.status
          ≠ 400) := by
  constructor
  · rintro ⟨u, c, ci, li, sc, tq, xr⟩ fc fl h
    rcases h with h | h <;> subst h <;>
      cases u <;> cases c <;> cases ci <;> cases li <;> cases sc <;>
        first
          | exact ⟨rfl, rfl, rfl⟩
          | simp [completeQuiz]
  · intro u c hu hc tq htq xr fc fl
    have hval : ¬ (u = "" ∨ c = "" ∨ tq = 0) := by
      push_neg
      exact ⟨hu, hc, htq⟩
    rcases fc with _ | course
    · simp [completeQuiz, hval]
    · rcases hcc : course.chapters[0]? with _ | chapter
      · simp [completeQuiz, hval, hcc]
      · rcases hll : chapter.lessons[0]? with _ | lesson
        · simp [completeQuiz, hval, hcc, hll]
        · by_cases hp : 50 ≤ quizPercentage 0 tq <;>
            simp [completeQuiz, hval, hcc, hll, hp]

/-- Witness for C9: `totalQuestions = 0` is rejected with no writes;
all-zero `chapterIndex`/`lessonIndex`/`score` is not a 400. -/
theorem quiz_validation_zero_boundary_witness :
    ((completeQuiz ⟨some "user1", some "course1", some 0, some 0, some 3, some 0, none⟩
        (some courseTwo) (some ledger30)).1.status = 400 ∧
     (completeQuiz ⟨some "user1", some "course1", some 0, some 0, some 3, some 0, none⟩
        (some courseTwo) (some ledger30)).2.1 = none ∧
     (completeQuiz ⟨some "user1", some "course1", some 0, some 0, some 3, some 0, none⟩
        (some courseTwo) (some ledger30)).2.2 = none) ∧
    (completeQuiz ⟨some "user1", some "course1", some 0, some 0, some 0, some 3, none⟩
        (some courseTwo) (some ledger30)).1.status ≠ 400 :=
  ⟨quiz_validation_zero_boundary.1
     ⟨some "user1", some "course1", some 0, some 0, some 3, some 0, none⟩
     (some courseTwo) (some ledger30) (Or.inr rfl),
   quiz_validation_zero_boundary.2 "user1" "course1" (by decide) (by decide) 3 (by decide)
     none (some courseTwo) (some ledger30)⟩

/-- Claim C10: the lesson `completed` flag is monotone under
`POST /api/quiz/complete`: no execution of the handler turns any
lesson's `completed` flag from true to false (the handler only assigns
`completed = true`, and only in the pass branch), even though a later
failing attempt on an already-completed lesson does overwrite that
lesson's `quizPassed` to false and `quizScore` to the new
percentage. -/
theorem quiz_completed_monotone :
    (∀ (req : QuizRequest) (course : Course) (fl : Option XPLedger) (course' : Course),
      (completeQuiz req (some course) fl).2.1 = some course' →
      ∀ (j k : Nat), lessonCompleted course j k = true → lessonCompleted course' j k = true) ∧
    (∀ (u c : String), u ≠ "" → c ≠ "" →
      ∀ (ci li : Nat) (sc : Int) (tq : Nat), tq ≠ 0 →
      ∀ (xr : Option Int) (course : Course) (fl : Option XPLedger)
        (ch : Chapter) (ls : Lesson),
        course.chapters[ci]? = some ch → ch.lessons[li]? = some ls →
        ls.completed = true → ¬ 50 ≤ quizPercentage sc tq →
        ∃ course' ch' ls',
          (completeQuiz ⟨some u, some c, some ci, some li, some sc, some tq, xr⟩
              (some course) fl).2.1 = some course' ∧
          course'.chapters[ci]? = some ch' ∧ ch'.lessons[li]? = some ls' ∧
          ls'.completed = true ∧ ls'.quizPassed = false ∧
          ls'.quizScore = some (quizPercentage sc tq)) := by
  constructor
  · rintro ⟨u, c, ci, li, sc, tq, xr⟩ course fl course' hsave j k hdone
    cases u <;> cases c <;> cases ci <;> cases li <;> cases sc <;> cases tq <;>
        simp only [completeQuiz] at hsave <;>
      try exact Option.noConfusion hsave
    rename_i u c ci li sc tq
    by_cases hval : u = "" ∨ c = "" ∨ tq = 0
    · rw [if_pos hval] at hsave
      exact absurd hsave (by simp)
    · rcases hcc : course.chapters[ci]? with _ | chapter
      · simp only [if_neg hval, hcc] at hsave
        exact Option.noConfusion hsave
      · rcases hll : chapter.lessons[li]? with _ | lesson
        · simp only [if_neg hval, hcc, hll] at hsave
          exact Option.noConfusion hsave
        · have hcilt := lt_of_getElem?_eq_some hcc
          have hlilt := lt_of_getElem?_eq_some hll
          by_cases hp : 50 ≤ quizPercentage sc tq
          · simp only [if_neg hval, hcc, hll, if_pos hp, Option.some.injEq] at hsave
            subst hsave
            by_cases hj : j = ci
            · rw [hj] at hdone ⊢
              by_cases hk : k = li
              · rw [hk]
                simp [lessonCompleted, List.getElem?_set_self hcilt, updateChapterCompletion,
                  List.getElem?_set_self hlilt]
              · simp [lessonCompleted, hcc] at hdone
                simp only [lessonCompleted]
                rw [List.getElem?_set_self hcilt]
                simpa [updateChapterCompletion, List.getElem?_set_ne (Ne.symm hk)]
                  using hdone
            · simp only [lessonCompleted] at hdone ⊢
              rw [List.getElem?_set_ne (Ne.symm hj)]
              exact hdone
          · simp only [if_neg hval, hcc, hll, if_neg hp, Option.some.injEq] at hsave
            subst hsave
            by_cases hj : j = ci
            · rw [hj] at hdone ⊢
              by_cases hk : k = li
              · rw [hk] at hdone ⊢
                simp [lessonCompleted, hcc, hll] at hdone
                simp only [lessonCompleted]
                rw [List.getElem?_set_self hcilt]
                simpa [List.getElem?_set_self hlilt] using hdone
              · simp [lessonCompleted, hcc] at hdone
                simp only [lessonCompleted]
                rw [List.getElem?_set_self hcilt]
                simpa [List.getElem?_set_ne (Ne.symm hk)] using hdone
            · simp only [lessonCompleted] at hdone ⊢
              rw [List.getElem?_set_ne (Ne.symm hj)]
              exact hdone
  · intro u c hu hc ci li sc tq htq xr course fl ch ls hch hls hdone hfail
    have hval : ¬ (u = "" ∨ c = "" ∨ tq = 0) := by
      push_neg
      exact ⟨hu, hc, htq⟩
    have hci := lt_of_getElem?_eq_some hch
    have hli := lt_of_getElem?_eq_some hls
    simp [completeQuiz, hval, hch, hls, hfail]
    rw [List.getElem?_set_self hci]
    refine ⟨_, rfl, ?_⟩
    rw [List.getElem?_set_self hli]
    exact ⟨_, rfl, hdone, rfl, rfl⟩

/-- Witness for C10: a failing resubmission (49/100) on the completed
first lesson of `courseDone0` keeps `completed = true` while
overwriting `quizPassed`/`quizScore`. -/
theorem quiz_completed_monotone_witness :
    lessonCompleted
      (Course.mk [Chapter.mk "Basics"
        [Lesson.mk "Recap" "text" 10 true 2 (some 49) false, lessonFresh] false]) 0 0 = true ∧
    (∃ course' ch' ls',
      (completeQuiz ⟨some "user1", some "course1", some 0, some 0, some 49, some 100, none⟩
          (some courseDone0) (some ledger30)).2.1 = some course' ∧
      course'.chapters[0]? = some ch' ∧ ch'.lessons[0]? = some ls' ∧
      ls'.completed = true ∧ ls'.quizPassed = false ∧
      ls'.quizScore = some (quizPercentage 49 100)) :=
  ⟨quiz_completed_monotone.1
     ⟨some "user1", some "course1", some 0, some 0, some 49, some 100, none⟩
     courseDone0 (some ledger30)
     (Course.mk [Chapter.mk "Basics"
       [Lesson.mk "Recap" "text" 10 true 2 (some 49) false, lessonFresh] false])
     (by decide) 0 0 (by decide),
   quiz_completed_monotone.2 "user1" "course1" (by decide) (by decide) 0 0 49 100
     (by decide) none courseDone0 (some ledger30) chapterDone0 lessonDone rfl rfl rfl
     (by decide)⟩
